import Mathlib

/-!
Shallow embedding of src/subjects/memory_pointers/memory_technique.hpp
(repository Donkey545/cpp-reference).

The header declares file-scope variables of differing storage durations, a
class ResourceManager with a type-shared static counter, a per-instance
constant identifier and a restricted default constructor, and one routine
memoryAllocationDemo that exercises stack allocation, smart-pointer
allocation, single-object new, array new, raw malloc, and the matching
release forms.

Modelling choices:
  - The heap is a fresh-address counter plus a list of live allocations,
    each tagged with its acquisition form (single-object new, array new, or
    raw malloc; the single allocation behind each smart pointer is tagged as
    a single-object allocation) and its C++ element type.  Releasing with a
    form that does not match the acquisition form, or releasing a dead
    address, is undefined behavior and is modelled as failure (none).
  - Mutable statics (globalVariable, fileLocalVariable, hardwareRegister,
    ResourceManager::sharedInstanceCounter, the function-local static
    persistentCounter) live in an explicit ProgState.  Memory owned by the
    caller and reachable through the routine's pointer and reference
    parameters is modelled as a map callerMem from addresses to values.
  - persistentCounter has the constant initializer 6, so its storage holds 6
    from program start and is initialized exactly once; it is a field of the
    initial program state.
  - The routine also emits a trace of observable events: each heap
    acquisition, each heap release, and any read of a field of a
    heap-allocated ResourceManager (the source performs no such read, so the
    translated routine emits no read event).
  - C++ compile-time rejections (writing a const variable, array-new of a
    type whose default constructor is inaccessible) are modelled by
    computable accessibility and const-qualification checks derived from the
    declarations in the source.
-/

/-- The C++ element types of the heap allocations made in the source file. -/
inductive CppType where
  | intTy
  | resourceManagerTy
  deriving DecidableEq, Repr

/-- The acquisition form of a heap allocation: single-object new (including
the single allocation behind each smart pointer), array new, or raw malloc. -/
inductive AllocKind where
  | single
  | array
  | raw
  deriving DecidableEq, Repr

/-- The release form applied to a heap allocation: single-object delete,
array delete, or free. -/
inductive ReleaseForm where
  | deleteSingle
  | deleteArray
  | freeRaw
  deriving DecidableEq, Repr

/-- The release form that correctly pairs with each acquisition form
(single-object new with delete, array new with array delete, malloc with
free). -/
def matchingRelease : AllocKind → ReleaseForm
  | .single => .deleteSingle
  | .array => .deleteArray
  | .raw => .freeRaw

/-- One live heap allocation: its address, its acquisition form, and the C++
element type it was made for. -/
structure HeapCell where
  addr : Nat
  kind : AllocKind
  ty : CppType
  deriving DecidableEq, Repr

/-- The heap: a fresh-address counter and the list of live allocations, most
recently acquired first. -/
structure Heap where
  next : Nat
  live : List HeapCell
  deriving Repr

/-- Acquire a fresh heap allocation of the given form and element type,
returning its address and the new heap. -/
def Heap.alloc (h : Heap) (k : AllocKind) (t : CppType) : Nat × Heap :=
  (h.next, { next := h.next + 1, live := ⟨h.next, k, t⟩ :: h.live })

/-- Remove the most recent live cell at the given address, provided the
release form matches its acquisition form.  Releasing a dead address or
using a mismatched release form is undefined behavior, modelled as none. -/
def removeAlloc : List HeapCell → Nat → ReleaseForm → Option (List HeapCell)
  | [], _, _ => none
  | c :: rest, a, f =>
    if c.addr = a then
      if matchingRelease c.kind = f then some rest else none
    else
      (removeAlloc rest a f).map (fun l => c :: l)

/-- Release the allocation at the given address with the given release form. -/
def Heap.release (h : Heap) (a : Nat) (f : ReleaseForm) : Option Heap :=
  (removeAlloc h.live a f).map (fun l => { next := h.next, live := l })

/-- The class ResourceManager: a per-instance constant identifier with
in-class initializer 5, and a mutable per-instance handle field.  (The
type-shared static counter sharedInstanceCounter is mutable program state and
lives in ProgState below.) -/
structure ResourceManager where
  instanceId : Int
  resourceHandle : Int
  deriving DecidableEq, Repr

/-- Modelled from the spec: the body of the sole public constructor
ResourceManager(int handle) is only declared in the header, with no
definition under src/.  Following the spec scenario (construct with
handle 42, observe resourceHandle 42), the constructor stores its argument in
resourceHandle.  The in-class initializer in the source fixes instanceId = 5
for every instance.  There is no default-construction operation: the default
constructor is declared private and never defined. -/
def ResourceManager.construct (handle : Int) : ResourceManager :=
  { instanceId := 5, resourceHandle := handle }

/-- C++ member access levels. -/
inductive Access where
  | pub
  | prot
  | priv
  deriving DecidableEq, Repr

/-- Whether a member declared at the given access level is accessible from
code outside the class, such as the free function memoryAllocationDemo. -/
def accessibleOutside : Access → Bool
  | .pub => true
  | .prot => false
  | .priv => false

/-- The default constructor of ResourceManager is declared private in the
source. -/
def ResourceManager.defaultCtorAccess : Access := Access.priv

/-- The constructor ResourceManager(int) is declared public in the source. -/
def ResourceManager.handleCtorAccess : Access := Access.pub

/-- A C++ array-new expression default-constructs every element, so it
compiles only where the element type's default constructor is accessible. -/
def arrayNewCompiles (defaultCtorAcc : Access) : Bool :=
  accessibleOutside defaultCtorAcc

/-- The file-scope variables declared in the source file. -/
inductive GlobalVar where
  | globalVariable
  | fileLocalVariable
  | externallyDefinedVariable
  | hardwareRegister
  | immutableGlobal
  deriving DecidableEq, Repr

/-- Which file-scope variables are const-qualified in the source: only
immutableGlobal is declared const. -/
def constQualified : GlobalVar → Bool
  | .immutableGlobal => true
  | _ => false

/-- A write to a file-scope variable compiles iff the variable is not
const-qualified. -/
def writeCompiles (v : GlobalVar) : Bool := !constQualified v

/-- const int immutableGlobal = 5: an immutable process-wide value.  Being
const, it is not part of the mutable program state; no operation in the
program can change it. -/
def immutableGlobal : Int := 5

/-- The mutable program state visible to memoryAllocationDemo: the mutable
file-scope variables, the type-shared static counter of ResourceManager
(zero-initialized; the source declares it and never defines or modifies it),
the function-local static persistentCounter, the caller's memory reachable
through pointer and reference arguments, and the heap. -/
structure ProgState where
  globalVariable : Int
  fileLocalVariable : Int
  hardwareRegister : Int
  sharedInstanceCounter : Int
  persistentCounter : Int
  callerMem : Nat → Int
  heap : Heap

/-- Observable events of one execution of memoryAllocationDemo: heap
acquisitions, heap releases, and reads of a field of a heap-allocated
ResourceManager object. -/
inductive Event where
  | allocEv (addr : Nat) (kind : AllocKind) (ty : CppType)
  | releaseEv (addr : Nat) (form : ReleaseForm)
  | readFieldEv (addr : Nat)
  deriving DecidableEq, Repr

/-- Whether a trace contains a read of a field of the heap object at the
given address. -/
def readsFieldAt (tr : List Event) (a : Nat) : Bool :=
  tr.any (fun e => e = Event.readFieldEv a)

/-- Aggregate initialization of a fixed-size local array: the listed
initializers come first and every element beyond the initializer list is
zero-initialized. -/
def initLocalArray (size : Nat) (inits : List Int) : List Int :=
  inits.take size ++ List.replicate (size - inits.length) 0

/-- int stackArray[3] = \x7b0, 1\x7d: the stack-allocated array of
memoryAllocationDemo; the third element is implicitly initialized to 0. -/
def stackArray : List Int := initLocalArray 3 [0, 1]

/-- Result of one execution of memoryAllocationDemo: the returned value, the
program state at return, and the event trace. -/
structure DemoResult where
  ret : Int
  state : ProgState
  trace : List Event

/-- Shallow embedding of int memoryAllocationDemo(int stackCopyParam,
const int* readOnlyDataPtr, int* const fixedAddressPtr, int& referenceAlias).

In source order: the three smart-pointer allocations (efficientSharedInt,
twoStepSharedInt, exclusiveOwnershipInt; each a single heap allocation of an
int, released automatically at scope exit), the single-object new
(singleHeapObject, whose constructor runs with handle 10), the array new
(heapObjectArray), the raw malloc block (uninitializedMemoryBlock, no
constructors run), and the stack object (automaticObject, constructed with
handle 20, automatic lifetime, destroyed at scope exit with no heap effect).
The cleanup section releases singleHeapObject with single-object delete,
heapObjectArray with array delete and uninitializedMemoryBlock with free;
the smart pointers release their allocations automatically at scope exit in
reverse declaration order.  Finally persistentCounter is incremented and
stackArray[0] is returned. -/
def memoryAllocationDemo (stackCopyParam : Int) (readOnlyDataPtr : Nat)
    (fixedAddressPtr : Nat) (referenceAlias : Nat) (s : ProgState) :
    Option DemoResult :=
  let (efficientSharedInt, h1) := s.heap.alloc AllocKind.single CppType.intTy
  let (twoStepSharedInt, h2) := h1.alloc AllocKind.single CppType.intTy
  let (exclusiveOwnershipInt, h3) := h2.alloc AllocKind.single CppType.intTy
  let (singleHeapObject, h4) := h3.alloc AllocKind.single CppType.resourceManagerTy
  let singleHeapObjectVal := ResourceManager.construct 10
  let (heapObjectArray, h5) := h4.alloc AllocKind.array CppType.resourceManagerTy
  let (uninitializedMemoryBlock, h6) := h5.alloc AllocKind.raw CppType.resourceManagerTy
  let automaticObject := ResourceManager.construct 20
  (h6.release singleHeapObject ReleaseForm.deleteSingle).bind fun h7 =>
  (h7.release heapObjectArray ReleaseForm.deleteArray).bind fun h8 =>
  (h8.release uninitializedMemoryBlock ReleaseForm.freeRaw).bind fun h9 =>
  (h9.release exclusiveOwnershipInt ReleaseForm.deleteSingle).bind fun h10 =>
  (h10.release twoStepSharedInt ReleaseForm.deleteSingle).bind fun h11 =>
  (h11.release efficientSharedInt ReleaseForm.deleteSingle).bind fun h12 =>
  some
    { ret := stackArray.headI
      state := { s with
                  heap := h12
                  persistentCounter := s.persistentCounter + 1 }
      trace :=
        [Event.allocEv efficientSharedInt AllocKind.single CppType.intTy,
         Event.allocEv twoStepSharedInt AllocKind.single CppType.intTy,
         Event.allocEv exclusiveOwnershipInt AllocKind.single CppType.intTy,
         Event.allocEv singleHeapObject AllocKind.single CppType.resourceManagerTy,
         Event.allocEv heapObjectArray AllocKind.array CppType.resourceManagerTy,
         Event.allocEv uninitializedMemoryBlock AllocKind.raw CppType.resourceManagerTy,
         Event.releaseEv singleHeapObject ReleaseForm.deleteSingle,
         Event.releaseEv heapObjectArray ReleaseForm.deleteArray,
         Event.releaseEv uninitializedMemoryBlock ReleaseForm.freeRaw,
         Event.releaseEv exclusiveOwnershipInt ReleaseForm.deleteSingle,
         Event.releaseEv twoStepSharedInt ReleaseForm.deleteSingle,
         Event.releaseEv efficientSharedInt ReleaseForm.deleteSingle] }

/-- The program state at startup: globalVariable = 1, fileLocalVariable = 2,
hardwareRegister = 4, sharedInstanceCounter zero-initialized, the
function-local static persistentCounter constant-initialized to 6 (its
initializer is a constant expression, so its storage holds 6 from program
start and is never re-initialized), caller memory given, empty heap. -/
def initialProgState (mem : Nat → Int) : ProgState :=
  { globalVariable := 1
    fileLocalVariable := 2
    hardwareRegister := 4
    sharedInstanceCounter := 0
    persistentCounter := 6
    callerMem := mem
    heap := { next := 0, live := [] } }

/-- Run memoryAllocationDemo a given number of times in sequence.  The
arguments are irrelevant to the resulting state, so fixed values are used. -/
def iterateDemo : Nat → ProgState → ProgState
  | 0, s => s
  | n + 1, s =>
    match memoryAllocationDemo 0 0 0 0 s with
    | some r => iterateDemo n r.state
    | none => s

/-- The event trace of a single run from the initial program state. -/
def demoTrace : List Event :=
  match memoryAllocationDemo 0 0 0 0 (initialProgState fun _ => 0) with
  | some r => r.trace
  | none => []

/-- Helper: a fresh address differs from its successor address. -/
theorem add_one_ne_self (x : Nat) : (x + 1 = x) = False :=
  eq_false (by omega)

/-- Helper: a fresh address differs from the address two past it. -/
theorem add_two_ne_self (x : Nat) : (x + 1 + 1 = x) = False :=
  eq_false (by omega)

/-- Helper: full evaluation of memoryAllocationDemo from an arbitrary state.
The run succeeds, returns stackArray[0] = 0, increments the static counter,
restores the live-allocation list, advances the fresh-address counter by the
six allocations made, and produces the complete event trace. -/
theorem memoryAllocationDemo_eval (a : Int) (p q r : Nat) (s : ProgState) :
    memoryAllocationDemo a p q r s = some
      { ret := 0
        state := { s with
                    heap := { next := s.heap.next + 6, live := s.heap.live }
                    persistentCounter := s.persistentCounter + 1 }
        trace :=
          [Event.allocEv s.heap.next AllocKind.single CppType.intTy,
           Event.allocEv (s.heap.next + 1) AllocKind.single CppType.intTy,
           Event.allocEv (s.heap.next + 2) AllocKind.single CppType.intTy,
           Event.allocEv (s.heap.next + 3) AllocKind.single CppType.resourceManagerTy,
           Event.allocEv (s.heap.next + 4) AllocKind.array CppType.resourceManagerTy,
           Event.allocEv (s.heap.next + 5) AllocKind.raw CppType.resourceManagerTy,
           Event.releaseEv (s.heap.next + 3) ReleaseForm.deleteSingle,
           Event.releaseEv (s.heap.next + 4) ReleaseForm.deleteArray,
           Event.releaseEv (s.heap.next + 5) ReleaseForm.freeRaw,
           Event.releaseEv (s.heap.next + 2) ReleaseForm.deleteSingle,
           Event.releaseEv (s.heap.next + 1) ReleaseForm.deleteSingle,
           Event.releaseEv s.heap.next ReleaseForm.deleteSingle] } := by
  simp [memoryAllocationDemo, Heap.alloc, Heap.release, removeAlloc,
        matchingRelease, stackArray, initLocalArray, Nat.add_assoc,
        add_one_ne_self, add_two_ne_self]

/-- Helper: one iteration step, rewritten through the full evaluation of the
routine. -/
theorem iterateDemo_succ (n : Nat) (s : ProgState) :
    iterateDemo (n + 1) s =
      iterateDemo n { s with
        heap := { next := s.heap.next + 6, live := s.heap.live }
        persistentCounter := s.persistentCounter + 1 } := by
  rw [iterateDemo, memoryAllocationDemo_eval]

/-- Helper: iterating the routine adds the iteration count to the static
persistentCounter. -/
theorem iterateDemo_persistentCounter (n : Nat) (s : ProgState) :
    (iterateDemo n s).persistentCounter = s.persistentCounter + n := by
  induction n generalizing s with
  | zero => simp [iterateDemo]
  | succ k ih =>
    rw [iterateDemo_succ, ih]
    simp
    omega

/-- Helper: iterating the routine never changes the type-shared counter. -/
theorem iterateDemo_sharedInstanceCounter (n : Nat) (s : ProgState) :
    (iterateDemo n s).sharedInstanceCounter = s.sharedInstanceCounter := by
  induction n generalizing s with
  | zero => rfl
  | succ k ih => rw [iterateDemo_succ, ih]

/-- Claim C1: in memoryAllocationDemo every explicit heap acquisition is
paired with exactly the matching release form before the routine returns:
the single-object new (singleHeapObject) is released with single-object
delete, the array new (heapObjectArray) with array delete, and the raw
malloc block (uninitializedMemoryBlock) with free; on return the live heap
equals the live heap at entry, so no allocation acquired in the routine
remains reachable and live. -/
theorem memoryAllocationDemo_pairs_releases (a : Int) (p q r : Nat) (s : ProgState) :
    ∃ res : DemoResult, memoryAllocationDemo a p q r s = some res ∧
      (Event.allocEv (s.heap.next + 3) AllocKind.single CppType.resourceManagerTy ∈ res.trace ∧
        Event.releaseEv (s.heap.next + 3) ReleaseForm.deleteSingle ∈ res.trace) ∧
      (Event.allocEv (s.heap.next + 4) AllocKind.array CppType.resourceManagerTy ∈ res.trace ∧
        Event.releaseEv (s.heap.next + 4) ReleaseForm.deleteArray ∈ res.trace) ∧
      (Event.allocEv (s.heap.next + 5) AllocKind.raw CppType.resourceManagerTy ∈ res.trace ∧
        Event.releaseEv (s.heap.next + 5) ReleaseForm.freeRaw ∈ res.trace) ∧
      res.state.heap.live = s.heap.live := by
  refine ⟨_, memoryAllocationDemo_eval a p q r s, ⟨?_, ?_⟩, ⟨?_, ?_⟩, ⟨?_, ?_⟩, rfl⟩ <;> simp

/-- Claim C2: for every call to memoryAllocationDemo, regardless of the
values of its four arguments and of the program state, the returned value
equals the first element of the internal stack array as initialized, which
is 0. -/
theorem memoryAllocationDemo_returns_zero (a : Int) (p q r : Nat) (s : ProgState) :
    ∃ res : DemoResult, memoryAllocationDemo a p q r s = some res ∧
      res.ret = stackArray.headI ∧ res.ret = 0 :=
  ⟨_, memoryAllocationDemo_eval a p q r s, rfl, rfl⟩

/-- Claim C3: the function-local static persistentCounter holds 6 before the
first call (its constant initializer runs exactly once) and is incremented by
exactly 1 on every call, so after N calls its value is 6 + N. -/
theorem persistentCounter_six_plus_calls (m : Nat → Int) (N : Nat) :
    (initialProgState m).persistentCounter = 6 ∧
    (iterateDemo N (initialProgState m)).persistentCounter = 6 + N := by
  refine ⟨rfl, ?_⟩
  rw [iterateDemo_persistentCounter]
  simp [initialProgState]

/-- Claim C4: array-allocating ResourceManager is rejected at compile time,
because its default constructor is private and therefore inaccessible to the
array-new expression; the source nevertheless contains exactly such an
array-new expression (heapObjectArray in memoryAllocationDemo, visible in the
trace as an array acquisition of ResourceManager). -/
theorem arrayNew_private_default_ctor_rejected :
    arrayNewCompiles ResourceManager.defaultCtorAccess = false ∧
    Event.allocEv 4 AllocKind.array CppType.resourceManagerTy ∈ demoTrace := by
  decide

/-- Claim C5: constructing a ResourceManager via the sole public constructor
with handle 42 yields an object whose per-instance constant instanceId is 5
and whose resourceHandle is 42; the object is immutable in the model, so the
values hold until release. -/
theorem resourceManager_construct_handle_42 :
    (ResourceManager.construct 42).instanceId = 5 ∧
    (ResourceManager.construct 42).resourceHandle = 42 :=
  ⟨rfl, rfl⟩

/-- Claim C6: the type-shared counter ResourceManager::sharedInstanceCounter
is declared but never modified: the constructor has no effect on it, a single
call to memoryAllocationDemo (with all its constructions and destructions)
leaves it unchanged, and so does any number of iterated calls. -/
theorem sharedInstanceCounter_never_modified (a : Int) (p q r : Nat)
    (s : ProgState) (N : Nat) :
    (∃ res : DemoResult, memoryAllocationDemo a p q r s = some res ∧
      res.state.sharedInstanceCounter = s.sharedInstanceCounter) ∧
    (iterateDemo N s).sharedInstanceCounter = s.sharedInstanceCounter :=
  ⟨⟨_, memoryAllocationDemo_eval a p q r s, rfl⟩,
    iterateDemo_sharedInstanceCounter N s⟩

/-- Claim C7: the stack-scoped array of memoryAllocationDemo has fixed size 3
and every element beyond the explicit initializer list \x7b0, 1\x7d is
zero-initialized: after initialization it holds exactly 0, 1, 0. -/
theorem stackArray_fixed_size_zero_filled :
    stackArray = [0, 1, 0] ∧ stackArray.length = 3 :=
  ⟨rfl, rfl⟩

/-- Claim C8: a write to the const global immutableGlobal does not compile,
and its value is 5; being const it is not part of the mutable program state,
so it remains 5 for the entire program run. -/
theorem immutableGlobal_write_rejected :
    writeCompiles GlobalVar.immutableGlobal = false ∧ immutableGlobal = 5 := by
  decide

/-- Claim C9: memoryAllocationDemo never reads or writes its four parameters
after entry: its entire result is independent of all four arguments, the
caller memory reachable through the pointer and reference arguments
(including the integer bound to referenceAlias) is unchanged, every mutable
global and the live heap are unchanged, and the only persistent state the
routine mutates is its own static persistentCounter. -/
theorem memoryAllocationDemo_frame (a a2 : Int) (p q r p2 q2 r2 : Nat)
    (s : ProgState) :
    memoryAllocationDemo a p q r s = memoryAllocationDemo a2 p2 q2 r2 s ∧
    ∃ res : DemoResult, memoryAllocationDemo a p q r s = some res ∧
      res.state.callerMem = s.callerMem ∧
      res.state.globalVariable = s.globalVariable ∧
      res.state.fileLocalVariable = s.fileLocalVariable ∧
      res.state.hardwareRegister = s.hardwareRegister ∧
      res.state.sharedInstanceCounter = s.sharedInstanceCounter ∧
      res.state.heap.live = s.heap.live ∧
      res.state.persistentCounter = s.persistentCounter + 1 := by
  refine ⟨?_, _, memoryAllocationDemo_eval a p q r s, rfl, rfl, rfl, rfl, rfl, rfl, rfl⟩
  rw [memoryAllocationDemo_eval, memoryAllocationDemo_eval]

/-- Claim C10: memoryAllocationDemo never reads any field of the raw malloc
block (uninitializedMemoryBlock, allocated at address next + 5) before
freeing it: its trace contains no field read of that address, so the
undefined behavior of reading unconstructed ResourceManager fields is never
exercised. -/
theorem memoryAllocationDemo_no_uninitialized_read (a : Int) (p q r : Nat)
    (s : ProgState) :
    ∃ res : DemoResult, memoryAllocationDemo a p q r s = some res ∧
      readsFieldAt res.trace (s.heap.next + 5) = false :=
  ⟨_, memoryAllocationDemo_eval a p q r s, by simp [readsFieldAt]⟩
